import Mathlib

/-!
Shallow embedding of `src/scripts/simple_dndbeyond_auth.py` (class
`SimpleDNDBeyondAuth` and the module-level `main`).

Modelling conventions:
* A Selenium `WebElement` is an abstract handle `Element`.
* The outcome of one `WebDriverWait(...).until(element_to_be_clickable(...))`
  call for a given selector is a `WaitResult`: the element was found, the
  wait timed out (`TimeoutException`), or some other exception was raised.
  A whole page state is a function `String → WaitResult` from selector
  expressions to such outcomes (the locator kind — CSS vs XPATH — does not
  affect control flow and is carried by the selector string itself).
* Python exceptions are modelled with `Except Unit`: `Except.error ()` is a
  raised exception reaching the enclosing handler, `Except.ok` a normal
  return.  Functions whose Python body catches every exception are total.
* `driver.find_element` outcomes in `check_login_success` are a
  `FindResult`: found, `NoSuchElementException`, or any other exception.
* The network probe `urllib.request.urlopen` outcome is a `NetResult`:
  a response with a status code, a `urllib.error.URLError`, or any other
  exception.
* Apostrophes inside the Python selector string literals are written with
  the escape `\x27`; the resulting `String` values are identical to the
  Python ones.
-/

/-- Abstract handle to a Selenium WebElement (always truthy in Python). -/
structure Element where
  id : Nat
deriving DecidableEq, Repr

/-- Outcome of one bounded `WebDriverWait` poll for one selector:
the element became clickable, the wait timed out, or another exception
was raised by the driver. -/
inductive WaitResult where
  | found (e : Element)
  | timeout
  | error
deriving DecidableEq, Repr

/-- Outcome of one `driver.find_element` call in `check_login_success`:
found, `NoSuchElementException`, or any other exception. -/
inductive FindResult where
  | found
  | noSuchElement
  | error
deriving DecidableEq, Repr

/-- Outcome of one `urllib.request.urlopen(url, timeout=...)` call:
a response carrying its HTTP status code, a `URLError`, or any other
exception. -/
inductive NetResult where
  | response (code : Nat)
  | urlError
  | otherError
deriving DecidableEq, Repr

/-- Python substring containment `needle in hay` on strings. -/
def strContains (hay needle : String) : Bool :=
  hay.toList.tails.any (fun t => needle.toList.isPrefixOf t)

/-- `wait_for_element` (lines 106-125): runs the bounded wait and catches
only `TimeoutException`, turning it into `None`; a found element is
returned and any other exception propagates to the caller. -/
def wait_for_element : WaitResult → Except Unit (Option Element)
  | WaitResult.found e => Except.ok (some e)
  | WaitResult.timeout => Except.ok none
  | WaitResult.error => Except.error ()

/-- The `username_selectors` list of `enter_credentials` (lines 161-167). -/
def username_selectors : List String :=
  ["input[name=\x27username\x27]",
   "input[name=\x27email\x27]",
   "input[type=\x27email\x27]",
   "input[id*=\x27username\x27]",
   "input[id*=\x27email\x27]"]

/-- The `password_selectors` list of `enter_credentials` (lines 185-189). -/
def password_selectors : List String :=
  ["input[name=\x27password\x27]",
   "input[type=\x27password\x27]",
   "input[id*=\x27password\x27]"]

/-- The `possible_selectors` list of `click_sign_in_with_wizards`
(lines 131-138). -/
def possible_selectors : List String :=
  ["//button[contains(text(), \x27Sign in with Wizards\x27)]",
   "//a[contains(text(), \x27Sign in with Wizards\x27)]",
   "//button[contains(@class, \x27wizards\x27)]",
   "//a[contains(@class, \x27wizards\x27)]",
   "//button[contains(text(), \x27Wizards\x27)]",
   "//a[contains(text(), \x27Wizards\x27)]"]

/-- The `submit_selectors` list of `submit_login` (lines 216-223). -/
def submit_selectors : List String :=
  ["button[type=\x27submit\x27]",
   "input[type=\x27submit\x27]",
   "//button[contains(text(), \x27Sign In\x27)]",
   "//button[contains(text(), \x27Login\x27)]",
   "//button[contains(text(), \x27Log In\x27)]",
   "//input[contains(@value, \x27Sign In\x27)]"]

/-- The `success_indicators` URL marker list of `check_login_success`
(lines 257-261). -/
def success_indicators : List String :=
  ["sources", "dashboard", "my-characters"]

/-- The `user_elements` XPATH list of `check_login_success`
(lines 269-274). -/
def user_elements : List String :=
  ["//a[contains(@class, \x27user\x27)]",
   "//button[contains(@class, \x27user\x27)]",
   "//div[contains(@class, \x27user-menu\x27)]",
   "//span[contains(@class, \x27username\x27)]"]

/-- `self.login_url` set in `__init__` (line 28). -/
def login_url : String :=
  "https://www.dndbeyond.com/sign-in?returnUrl=https://www.dndbeyond.com/sources"

/-- The bare first-match loop over a selector list used by
`enter_credentials` for the username field (lines 169-173) and the
password field (lines 191-195): for each selector in order call
`wait_for_element`; stop at the first found element; a `None` result
advances to the next selector; an exception propagates.  The second
component records the selectors polled, in order. -/
def findFirstTr (w : String → WaitResult) :
    List String → Except Unit (Option Element) × List String
  | [] => (Except.ok none, [])
  | s :: rest =>
    match wait_for_element (w s) with
    | Except.error _ => (Except.error (), [s])
    | Except.ok (some e) => (Except.ok (some e), [s])
    | Except.ok none =>
      ((findFirstTr w rest).1, s :: (findFirstTr w rest).2)

/-- The resolution result of the first-match loop, without the poll trace. -/
def findFirst (w : String → WaitResult) (sels : List String) :
    Except Unit (Option Element) :=
  (findFirstTr w sels).1

/-- Whether a selector resolves to an element in page state `w`. -/
def isHit (w : String → WaitResult) (s : String) : Bool :=
  match w s with
  | WaitResult.found _ => true
  | _ => false

/-- The guarded first-match-and-click loop shared by
`click_sign_in_with_wizards` (lines 140-148) and `submit_login`
(lines 225-237): each iteration wraps the wait and the click in its own
`try`, so a wait exception, a `None` result, or a click exception all
advance to the next selector; a successful click returns `True`;
an exhausted list falls through to `False`.  `clickOk e` tells whether
`e.click()` succeeds (raises otherwise). -/
def clickLoop (w : String → WaitResult) (clickOk : Element → Bool) :
    List String → Bool
  | [] => false
  | s :: rest =>
    match wait_for_element (w s) with
    | Except.error _ => clickLoop w clickOk rest
    | Except.ok none => clickLoop w clickOk rest
    | Except.ok (some e) =>
      if clickOk e then true else clickLoop w clickOk rest

/-- `click_sign_in_with_wizards` (lines 127-155): the guarded loop over
`possible_selectors`; its outer `try` never sees an exception because
every iteration catches its own, so the function is total and returns
`False` when no candidate is found and clicked. -/
def click_sign_in_with_wizards (w : String → WaitResult)
    (clickOk : Element → Bool) : Bool :=
  clickLoop w clickOk possible_selectors

/-- `submit_login` (lines 212-244): the same guarded loop over
`submit_selectors` (the `startswith("//")` test only selects the locator
kind, which does not affect control flow). -/
def submit_login (w : String → WaitResult) (clickOk : Element → Bool) :
    Bool :=
  clickLoop w clickOk submit_selectors

/-- Observable events of `enter_credentials`: polling one username
candidate, typing the username (`clear()` + `send_keys`), polling one
password candidate, typing the password. -/
inductive CredEv where
  | pollUser (s : String)
  | typedUsername
  | pollPass (s : String)
  | typedPassword
deriving DecidableEq, Repr

/-- `enter_credentials` (lines 157-210): resolve the username field over
`username_selectors` (first match), return `False` if absent; clear and
type the username; resolve the password field over `password_selectors`,
return `False` if absent; clear and type the password; return `True`.
The whole body sits in one `try` whose handler returns `False`, so a
wait or typing exception yields `False`.  `typeUserOk` / `typePassOk`
say whether the clear-and-type interactions succeed.  The second
component is the event trace, in program order; no event ever removes
typed text. -/
def enter_credentials (w : String → WaitResult)
    (typeUserOk typePassOk : Bool) : Bool × List CredEv :=
  match findFirstTr w username_selectors with
  | (Except.error _, tru) => (false, tru.map CredEv.pollUser)
  | (Except.ok none, tru) => (false, tru.map CredEv.pollUser)
  | (Except.ok (some _), tru) =>
    if !typeUserOk then (false, tru.map CredEv.pollUser)
    else
      match findFirstTr w password_selectors with
      | (Except.error _, trp) =>
        (false, tru.map CredEv.pollUser ++ [CredEv.typedUsername] ++
          trp.map CredEv.pollPass)
      | (Except.ok none, trp) =>
        (false, tru.map CredEv.pollUser ++ [CredEv.typedUsername] ++
          trp.map CredEv.pollPass)
      | (Except.ok (some _), trp) =>
        if !typePassOk then
          (false, tru.map CredEv.pollUser ++ [CredEv.typedUsername] ++
            trp.map CredEv.pollPass)
        else
          (true, tru.map CredEv.pollUser ++ [CredEv.typedUsername] ++
            trp.map CredEv.pollPass ++ [CredEv.typedPassword])

/-- `check_internet_connection` (lines 32-46): open
`https://www.google.com` with a 10s timeout; return `True` iff a
response arrives and its status code is 200; `URLError` and every other
exception are caught and yield `False`. -/
def check_internet_connection : NetResult → Bool
  | NetResult.response code => code == 200
  | NetResult.urlError => false
  | NetResult.otherError => false

/-- `check_dndbeyond_accessibility` (lines 48-62): identical logic
against `https://www.dndbeyond.com` with a 15s timeout. -/
def check_dndbeyond_accessibility : NetResult → Bool
  | NetResult.response code => code == 200
  | NetResult.urlError => false
  | NetResult.otherError => false

/-- Abstract handle to a started browser driver process. -/
structure Driver where
  pid : Nat
deriving DecidableEq, Repr

/-- Environment of `setup_driver`: whether
`EdgeChromiumDriverManager().install()` succeeds, the result of
`webdriver.Edge(...)` (`some d` when the browser starts), whether the
`navigator.webdriver` override `execute_script` succeeds on `d`, and
whether the `implicitly_wait` / `set_page_load_timeout` calls succeed. -/
structure DriverEnv where
  install : Bool
  start : Option Driver
  scriptOk : Driver → Bool
  timeoutsOk : Driver → Bool

/-- `setup_driver` (lines 64-104): build options, install the driver
binary, start the browser and assign it to `self.driver`, then run the
`navigator.webdriver` override script and set the two timeouts, all
inside one `try` whose handlers return `False`.  Returns the Python
return value together with the final value of `self.driver` — note the
assignment happens before the override script, so a script (or timeout
setter) failure returns `False` with the driver still assigned. -/
def setup_driver (env : DriverEnv) : Bool × Option Driver :=
  if !env.install then (false, none)
  else
    match env.start with
    | none => (false, none)
    | some d =>
      if !env.scriptOk d then (false, some d)
      else if !env.timeoutsOk d then (false, some d)
      else (true, some d)

/-- The `user_elements` loop of `check_login_success` (lines 276-283):
`find_element` per XPATH selector; a found (always truthy) element
returns `True`; `NoSuchElementException` is caught and continues; any
other exception escapes to the outer handler. -/
def userElemLoop (dom : String → FindResult) :
    List String → Except Unit Bool
  | [] => Except.ok false
  | s :: rest =>
    match dom s with
    | FindResult.found => Except.ok true
    | FindResult.noSuchElement => userElemLoop dom rest
    | FindResult.error => Except.error ()

/-- The body of `check_login_success` inside its `try` (lines 249-291):
read the current URL; return `True` on the first `success_indicators`
marker contained in it; otherwise return `True` if a `user_elements`
selector resolves; otherwise return `False` whether or not the URL still
contains `"sign-in"` or `"login"` (both the still-on-login-page branch
and the final status-unclear branch return `False`). -/
def check_login_success_body (url : String) (dom : String → FindResult) :
    Except Unit Bool :=
  if success_indicators.any (fun m => strContains url m) then
    Except.ok true
  else
    match userElemLoop dom user_elements with
    | Except.ok true => Except.ok true
    | Except.error e => Except.error e
    | Except.ok false =>
      if strContains url "sign-in" || strContains url "login" then
        Except.ok false
      else
        Except.ok false

/-- `check_login_success` (lines 246-295): the body above wrapped in the
outer `try` whose handler returns `False`.  `urlReadOk` is whether the
`self.driver.current_url` read succeeds (a raise there also lands in the
outer handler). -/
def check_login_success (urlReadOk : Bool) (url : String)
    (dom : String → FindResult) : Bool :=
  if !urlReadOk then false
  else
    match check_login_success_body url dom with
    | Except.ok b => b
    | Except.error _ => false

/-- Steps of `authenticate`, in the order the method runs them. -/
inductive AuthEv where
  | evNet
  | evDnd
  | evSetup
  | evNav
  | evWiz
  | evCreds
  | evSubmit
  | evClassify
deriving DecidableEq, Repr

/-- Environment for one run of `authenticate`: outcomes of the two
network probes, the driver bootstrap environment, whether
`driver.get(login_url)` succeeds, whether the screenshot succeeds, the
page states seen by the three element loops, the interaction outcomes,
and the post-submission URL/DOM state. -/
structure AuthEnv where
  net : NetResult
  dnd : NetResult
  drv : DriverEnv
  navOk : Bool
  shotOk : Bool
  wizWait : String → WaitResult
  wizClickOk : Element → Bool
  credWait : String → WaitResult
  typeUserOk : Bool
  typePassOk : Bool
  subWait : String → WaitResult
  subClickOk : Element → Bool
  urlReadOk : Bool
  finalUrl : String
  dom : String → FindResult

/-- `authenticate` (lines 297-373): the linear pipeline — internet probe,
target probe, driver setup, navigation, screenshot (failure ignored),
optional Wizards button (failure only logged), credentials, submit,
classification — each required step returning `False` aborts with
`False`.  Result: the Python return value, the final `self.driver`
(needed by `close`), and the trace of steps reached. -/
def authenticate (env : AuthEnv) : Bool × Option Driver × List AuthEv :=
  if !check_internet_connection env.net then
    (false, none, [AuthEv.evNet])
  else if !check_dndbeyond_accessibility env.dnd then
    (false, none, [AuthEv.evNet, AuthEv.evDnd])
  else
    match setup_driver env.drv with
    | (false, drv) =>
      (false, drv, [AuthEv.evNet, AuthEv.evDnd, AuthEv.evSetup])
    | (true, drv) =>
      if !env.navOk then
        (false, drv,
         [AuthEv.evNet, AuthEv.evDnd, AuthEv.evSetup, AuthEv.evNav])
      else
        let _shot := env.shotOk
        let _wiz := click_sign_in_with_wizards env.wizWait env.wizClickOk
        let tr1 := [AuthEv.evNet, AuthEv.evDnd, AuthEv.evSetup,
                    AuthEv.evNav, AuthEv.evWiz, AuthEv.evCreds]
        if !(enter_credentials env.credWait env.typeUserOk
              env.typePassOk).1 then
          (false, drv, tr1)
        else if !submit_login env.subWait env.subClickOk then
          (false, drv, tr1 ++ [AuthEv.evSubmit])
        else
          (check_login_success env.urlReadOk env.finalUrl env.dom, drv,
           tr1 ++ [AuthEv.evSubmit, AuthEv.evClassify])

/-- `close` (lines 375-378): `driver.quit()` is called iff `self.driver`
is set; the result counts the `quit` invocations it performs. -/
def close_quit_count : Option Driver → Nat
  | some _ => 1
  | none => 0

/-- `main` (lines 385-406): construct the handler, run `authenticate`
inside `try`, and release the session in the `finally` block via
`auth.close()`.  Both handlers (`KeyboardInterrupt`, `Exception`) and
the success path all fall through to the same `finally`, so the model
collapses them: the result is the `authenticate` outcome paired with the
number of `driver.quit()` calls the run performs. -/
def main_run (env : AuthEnv) : Bool × Nat :=
  ((authenticate env).1, close_quit_count (authenticate env).2.1)

/-- Whether a run of `authenticate` under `env` creates a browser
session: both probes pass, the driver binary installs, and
`webdriver.Edge` returns a driver. -/
def sessionCreated (env : AuthEnv) : Bool :=
  check_internet_connection env.net &&
  check_dndbeyond_accessibility env.dnd &&
  env.drv.install && env.drv.start.isSome

/-- A concrete run environment: network up, browser starts, login page
loads, but no element of any LocatorSet ever becomes clickable (the run
aborts at credential entry, after bootstrap). -/
def envHappy : AuthEnv where
  net := NetResult.response 200
  dnd := NetResult.response 200
  drv :=
    { install := true
      start := some ⟨0⟩
      scriptOk := fun _ => true
      timeoutsOk := fun _ => true }
  navOk := true
  shotOk := true
  wizWait := fun _ => WaitResult.timeout
  wizClickOk := fun _ => true
  credWait := fun _ => WaitResult.timeout
  typeUserOk := true
  typePassOk := true
  subWait := fun _ => WaitResult.timeout
  subClickOk := fun _ => true
  urlReadOk := true
  finalUrl := login_url
  dom := fun _ => FindResult.noSuchElement

/-- `envHappy` with the reference-host probe raising a `URLError`. -/
def envNetDown : AuthEnv := { envHappy with net := NetResult.urlError }

/-- A page state where the first username candidate times out and the
second (`input[name='email']`) resolves; everything else times out. -/
def wEmailOnly : String → WaitResult := fun s =>
  if s = "input[name=\x27email\x27]" then WaitResult.found ⟨3⟩
  else WaitResult.timeout

/-- A page state where only the first username candidate
(`input[name='username']`) resolves; in particular every password
candidate times out. -/
def wUserOnly : String → WaitResult := fun s =>
  if s = "input[name=\x27username\x27]" then WaitResult.found ⟨1⟩
  else WaitResult.timeout

/-! ## Helper lemmas -/

/-- If every selector in the list times out, the first-match loop polls
each of them in order and reports "not found" without an exception. -/
theorem findFirstTr_all_timeout (w : String → WaitResult)
    (l : List String) (h : ∀ s ∈ l, w s = WaitResult.timeout) :
    findFirstTr w l = (Except.ok none, l) := by
  induction l with
  | nil => rfl
  | cons s rest ih =>
    have hs : w s = WaitResult.timeout := h s (List.mem_cons_self s rest)
    have hrest := ih (fun t ht => h t (List.mem_cons_of_mem s ht))
    simp [findFirstTr, wait_for_element, hs, hrest]

/-- If every selector in the list times out, the guarded click loop
returns `false`. -/
theorem clickLoop_all_timeout (w : String → WaitResult)
    (clickOk : Element → Bool) (l : List String)
    (h : ∀ s ∈ l, w s = WaitResult.timeout) :
    clickLoop w clickOk l = false := by
  induction l with
  | nil => rfl
  | cons s rest ih =>
    have hs : w s = WaitResult.timeout := h s (List.mem_cons_self s rest)
    have hrest := ih (fun t ht => h t (List.mem_cons_of_mem s ht))
    simp [clickLoop, wait_for_element, hs, hrest]

/-- If no selector in the list resolves to a found element, the
`user_elements` loop either completes with `false` or escapes with an
exception (when some `find_element` raises a non-`NoSuchElement`
error); it never yields `true`. -/
theorem userElemLoop_no_found (dom : String → FindResult)
    (l : List String) (h : ∀ s ∈ l, dom s ≠ FindResult.found) :
    userElemLoop dom l = Except.ok false ∨
      userElemLoop dom l = Except.error () := by
  induction l with
  | nil => exact Or.inl rfl
  | cons s rest ih =>
    have hs := h s (List.mem_cons_self s rest)
    cases hds : dom s with
    | found => exact absurd hds hs
    | noSuchElement =>
      have hrest := ih (fun t ht => h t (List.mem_cons_of_mem s ht))
      rcases hrest with hr | hr
      · exact Or.inl (by simp [userElemLoop, hds, hr])
      · exact Or.inr (by simp [userElemLoop, hds, hr])
    | error => exact Or.inr (by simp [userElemLoop, hds])

/-! ## Claim theorems -/

/-- C5: for every LocatorSet and every page state in which no candidate
raises a driver error, if the first candidate that resolves to an
interactable element is `s` (earlier candidates all fail within their
per-candidate budget), the first-match resolver returns exactly the
element of `s`: order encodes preference and the first successful match
wins. -/
theorem resolver_first_match_wins (w : String → WaitResult)
    (sels : List String) (s : String) (e : Element)
    (hnoerr : ∀ t ∈ sels, w t ≠ WaitResult.error)
    (hfind : sels.find? (isHit w) = some s)
    (hfound : w s = WaitResult.found e) :
    findFirst w sels = Except.ok (some e) := by
  induction sels with
  | nil => simp at hfind
  | cons t rest ih =>
    cases hw : w t with
    | found e2 =>
      have hhit : isHit w t = true := by simp [isHit, hw]
      rw [List.find?_cons_of_pos _ hhit] at hfind
      have hts : t = s := by injection hfind
      subst hts
      rw [hw] at hfound
      injection hfound with he
      subst he
      simp [findFirst, findFirstTr, wait_for_element, hw]
    | timeout =>
      have hhit : isHit w t = false := by simp [isHit, hw]
      rw [List.find?_cons_of_neg _ (by simp [hhit])] at hfind
      have hrec := ih (fun u hu => hnoerr u (List.mem_cons_of_mem t hu))
        hfind
      simpa [findFirst, findFirstTr, wait_for_element, hw] using hrec
    | error =>
      exact absurd hw (hnoerr t (List.mem_cons_self t rest))

/-- Witness for C5: on `wEmailOnly` the first username candidate times
out and the resolver returns the element matched by the second
candidate. -/
theorem resolver_first_match_wins_witness :
    findFirst wEmailOnly username_selectors = Except.ok (some ⟨3⟩) :=
  resolver_first_match_wins wEmailOnly username_selectors
    "input[name=\x27email\x27]" ⟨3⟩ (by decide) (by decide) (by decide)

/-- C6: in a page state where every candidate times out, the first-match
resolver returns "not found" as a normal value (`Except.ok none`, no
exception), and `click_sign_in_with_wizards` — whose LocatorSet is
exhausted the same way — returns `false` without raising. -/
theorem resolver_exhausted_returns_not_found (w : String → WaitResult)
    (clickOk : Element → Bool)
    (hall : ∀ t : String, w t = WaitResult.timeout) :
    (∀ sels : List String, findFirst w sels = Except.ok none) ∧
      click_sign_in_with_wizards w clickOk = false := by
  constructor
  · intro sels
    have := findFirstTr_all_timeout w sels (fun s _ => hall s)
    simp [findFirst, this]
  · exact clickLoop_all_timeout w clickOk possible_selectors
      (fun s _ => hall s)

/-- Witness for C6: the all-timeout page state. -/
theorem resolver_exhausted_returns_not_found_witness :
    findFirst (fun _ => WaitResult.timeout) username_selectors =
        Except.ok none ∧
      click_sign_in_with_wizards (fun _ => WaitResult.timeout)
        (fun _ => true) = false :=
  ⟨(resolver_exhausted_returns_not_found (fun _ => WaitResult.timeout)
      (fun _ => true) (fun _ => rfl)).1 username_selectors,
   (resolver_exhausted_returns_not_found (fun _ => WaitResult.timeout)
      (fun _ => true) (fun _ => rfl)).2⟩

/-- C7: both connectivity probes are total functions of the network
outcome — a `URLError`, any other exception, and every non-200 response
all collapse to `false`; the probe returns `true` exactly when a
response with the successful status 200 arrives within the timeout. -/
theorem connectivity_check_total_and_sound (r : NetResult) :
    (check_internet_connection r = true ↔ r = NetResult.response 200) ∧
      (check_dndbeyond_accessibility r = true ↔
        r = NetResult.response 200) := by
  cases r <;>
    simp [check_internet_connection, check_dndbeyond_accessibility]

/-- C8: whenever the final URL contains a success marker, the classifier
returns success for every DOM state — the URL check comes first and
short-circuits the DOM-indicator loop (which here would even raise). -/
theorem url_success_marker_short_circuits (url : String)
    (dom : String → FindResult)
    (h : success_indicators.any (fun m => strContains url m) = true) :
    check_login_success true url dom = true := by
  simp [check_login_success, check_login_success_body, h]

/-- Witness for C8: a post-login URL containing `sources`, with a DOM
in which every `find_element` would raise. -/
theorem url_success_marker_short_circuits_witness :
    check_login_success true "https://www.dndbeyond.com/sources"
      (fun _ => FindResult.error) = true :=
  url_success_marker_short_circuits "https://www.dndbeyond.com/sources"
    (fun _ => FindResult.error) (by decide)

/-- C2 counterexample: the login URL itself — the URL a failed attempt
stays on — contains the sign-in marker, and with no authenticated-user
DOM indicator resolving, the classifier nevertheless returns `true`
(Success): the `returnUrl` query component contains the success marker
`sources`, which is checked first.  The claim as stated is therefore
false. -/
theorem signin_url_with_return_marker_classified_success :
    strContains login_url "sign-in" = true ∧
      (∀ s ∈ user_elements,
        (fun _ => FindResult.noSuchElement : String → FindResult) s ≠
          FindResult.found) ∧
      check_login_success true login_url
        (fun _ => FindResult.noSuchElement) = true :=
  ⟨by decide, by decide, by decide⟩

/-- C2 as amended: if the final URL contains the sign-in marker and
none of the success markers, and no authenticated-user DOM indicator
resolves, the classifier returns `false` (Failure). -/
theorem signin_no_success_marker_classified_failure (url : String)
    (dom : String → FindResult)
    (_hsign : strContains url "sign-in" = true)
    (hsucc : ∀ m ∈ success_indicators, strContains url m = false)
    (hdom : ∀ s ∈ user_elements, dom s ≠ FindResult.found) :
    check_login_success true url dom = false := by
  have hany : success_indicators.any (fun m => strContains url m) =
      false := by
    simp only [List.any_eq_false]
    intro m hm
    simp [hsucc m hm]
  rcases userElemLoop_no_found dom user_elements hdom with hloop | hloop <;>
    simp [check_login_success, check_login_success_body, hany, hloop]

/-- Witness for the amended C2: a bare sign-in URL with an empty DOM. -/
theorem signin_no_success_marker_classified_failure_witness :
    check_login_success true "https://www.dndbeyond.com/sign-in"
      (fun _ => FindResult.noSuchElement) = false :=
  signin_no_success_marker_classified_failure
    "https://www.dndbeyond.com/sign-in"
    (fun _ => FindResult.noSuchElement) (by decide) (by decide)
    (by decide)

/-- C3 counterexample: on a state whose URL carries neither a success
marker nor the sign-in/login markers and whose DOM has no
authenticated-user indicator, the classifier returns `false` — the very
same value it returns for the unambiguous-failure state — and the
hypotheses of the claim hold at this input.  The code has no third
outcome value: its caller cannot distinguish Ambiguous from Failure. -/
theorem ambiguous_state_value_equals_failure_value :
    (∀ m ∈ success_indicators,
      strContains "https://www.wizards.com/account-locked" m = false) ∧
      strContains "https://www.wizards.com/account-locked" "sign-in" =
        false ∧
      strContains "https://www.wizards.com/account-locked" "login" =
        false ∧
      check_login_success true "https://www.wizards.com/account-locked"
          (fun _ => FindResult.noSuchElement) =
        check_login_success true "https://www.dndbeyond.com/sign-in"
          (fun _ => FindResult.noSuchElement) ∧
      check_login_success true "https://www.wizards.com/account-locked"
        (fun _ => FindResult.noSuchElement) = false :=
  ⟨by decide, by decide, by decide, by decide, by decide⟩

/-- C3 as amended: in the neither-marker, no-indicator case the
classifier returns `false`, the same Boolean it returns for Failure;
the "status unclear" case is reported to the caller as an ordinary
failed login, distinguished only in the console output. -/
theorem ambiguous_state_classified_false (url : String)
    (dom : String → FindResult)
    (hsucc : ∀ m ∈ success_indicators, strContains url m = false)
    (_hsign : strContains url "sign-in" = false)
    (_hlogin : strContains url "login" = false)
    (hdom : ∀ s ∈ user_elements, dom s ≠ FindResult.found) :
    check_login_success true url dom = false := by
  have hany : success_indicators.any (fun m => strContains url m) =
      false := by
    simp only [List.any_eq_false]
    intro m hm
    simp [hsucc m hm]
  rcases userElemLoop_no_found dom user_elements hdom with hloop | hloop <;>
    simp [check_login_success, check_login_success_body, hany, hloop]

/-- Witness for the amended C3: an off-site URL with an empty DOM. -/
theorem ambiguous_state_classified_false_witness :
    check_login_success true "https://www.wizards.com/account-locked"
      (fun _ => FindResult.noSuchElement) = false :=
  ambiguous_state_classified_false
    "https://www.wizards.com/account-locked"
    (fun _ => FindResult.noSuchElement) (by decide) (by decide)
    (by decide) (by decide)

/-- C4 counterexample: an environment in which the driver binary
installs and the browser starts, but the `navigator.webdriver`
override script raises.  `setup_driver` catches the exception with the
same handlers as a driver-start failure and returns `False` — bootstrap
reports failure even though the driver itself started (and stays
assigned to `self.driver`).  The suppress failure is fatal, not merely
logged. -/
theorem webdriver_override_failure_is_fatal :
    setup_driver
        { install := true
          start := some ⟨0⟩
          scriptOk := fun _ => false
          timeoutsOk := fun _ => true } =
      (false, some ⟨0⟩) := by
  decide

/-- C4 as amended: bootstrap reports success exactly when the driver
binary installs, the browser starts, *and* the anti-detection override
script and the timeout setters all succeed — a failure of the override
script is caught by the same handler as a driver-start failure and
makes the whole bootstrap return failure (with the driver handle still
assigned for later cleanup). -/
theorem setup_driver_success_iff (env : DriverEnv) :
    (setup_driver env).1 = true ↔
      env.install = true ∧ ∃ d, env.start = some d ∧
        env.scriptOk d = true ∧ env.timeoutsOk d = true := by
  cases hinst : env.install with
  | false => simp [setup_driver, hinst]
  | true =>
    cases hstart : env.start with
    | none => simp [setup_driver, hinst, hstart]
    | some d =>
      cases hcs : env.scriptOk d <;> cases hct : env.timeoutsOk d <;>
        simp [setup_driver, hinst, hstart, hcs, hct]

/-- C1: in every run of `main` in which a browser session is created
(both probes pass, the driver binary installs, and `webdriver.Edge`
returns a driver), `driver.quit()` is invoked exactly once before the
run ends — on every exit path, including the paths where navigation,
credential entry, submission, or classification fails after bootstrap,
and including the path where the override script fails inside
`setup_driver` (the driver is already assigned, and `main`'s `finally`
block releases it). -/
theorem session_released_exactly_once (env : AuthEnv)
    (h : sessionCreated env = true) : (main_run env).2 = 1 := by
  have h2 := h
  simp only [sessionCreated, Bool.and_eq_true] at h2
  obtain ⟨⟨⟨hnet, hdnd⟩, hinst⟩, hstart⟩ := h2
  obtain ⟨d, hd⟩ : ∃ d, env.drv.start = some d := by
    cases ho : env.drv.start with
    | none => rw [ho] at hstart; simp at hstart
    | some x => exact ⟨x, rfl⟩
  have hdrv : (setup_driver env.drv).2 = some d := by
    simp only [setup_driver, hinst, hd]
    cases env.drv.scriptOk d <;> cases env.drv.timeoutsOk d <;> simp
  simp only [main_run]
  rcases hs : setup_driver env.drv with ⟨b, drv⟩
  rw [hs] at hdrv
  simp only at hdrv
  subst hdrv
  cases b with
  | false => simp [authenticate, hnet, hdnd, hs, close_quit_count]
  | true =>
    cases hn : env.navOk <;>
      cases hc : (enter_credentials env.credWait env.typeUserOk
          env.typePassOk).1 <;>
        cases hsub : submit_login env.subWait env.subClickOk <;>
          simp [authenticate, hnet, hdnd, hs, hn, hc, hsub,
            close_quit_count]

/-- Witness for C1: on `envHappy` the session is created, credential
entry then fails (no field ever resolves), and the quit count of the
whole run is still exactly 1. -/
theorem session_released_exactly_once_witness :
    sessionCreated envHappy = true ∧ (main_run envHappy).2 = 1 :=
  ⟨by decide, session_released_exactly_once envHappy (by decide)⟩

/-- C9: whenever either connectivity probe returns `false`, the attempt
returns `False`, the driver field stays unset (no browser session is
ever created), and the step trace never reaches driver setup — the
browser cost is only paid after both probes succeed. -/
theorem network_failure_aborts_before_bootstrap (env : AuthEnv)
    (h : check_internet_connection env.net = false ∨
      check_dndbeyond_accessibility env.dnd = false) :
    (authenticate env).1 = false ∧ (authenticate env).2.1 = none ∧
      AuthEv.evSetup ∉ (authenticate env).2.2 := by
  cases hnet : check_internet_connection env.net with
  | false =>
    refine ⟨?_, ?_, ?_⟩ <;> simp [authenticate, hnet]
  | true =>
    have hdnd : check_dndbeyond_accessibility env.dnd = false := by
      rcases h with h | h
      · rw [h] at hnet; exact absurd hnet (by simp)
      · exact h
    refine ⟨?_, ?_, ?_⟩ <;> simp [authenticate, hnet, hdnd]

/-- Witness for C9: `envNetDown`, whose reference-host probe raises a
`URLError`. -/
theorem network_failure_aborts_before_bootstrap_witness :
    (authenticate envNetDown).1 = false ∧
      (authenticate envNetDown).2.1 = none ∧
      AuthEv.evSetup ∉ (authenticate envNetDown).2.2 :=
  network_failure_aborts_before_bootstrap envNetDown (Or.inl (by decide))

/-- C10: credential entry is not atomic on failure — whenever some
username candidate resolves (and typing it succeeds) while every
password candidate times out, `enter_credentials` returns `False` with
a trace in which the username has already been typed into the page
before the first password candidate is polled, all password candidates
are polled after it, and no event removes the typed identifier. -/
theorem partial_credential_entry_on_password_failure
    (w : String → WaitResult) (typePassOk : Bool) (e : Element)
    (hu : (findFirstTr w username_selectors).1 = Except.ok (some e))
    (hp : ∀ s ∈ password_selectors, w s = WaitResult.timeout) :
    enter_credentials w true typePassOk =
      (false,
        (findFirstTr w username_selectors).2.map CredEv.pollUser ++
          [CredEv.typedUsername] ++
          password_selectors.map CredEv.pollPass) := by
  have hpw : findFirstTr w password_selectors =
      (Except.ok none, password_selectors) :=
    findFirstTr_all_timeout w password_selectors hp
  rcases hfu : findFirstTr w username_selectors with ⟨ru, tru⟩
  rw [hfu] at hu
  simp only at hu
  subst hu
  simp [enter_credentials, hfu, hpw]

/-- Witness for C10: on `wUserOnly` the first username candidate
resolves and every password candidate times out; the run fails with
the username typed and every password candidate polled afterwards. -/
theorem partial_credential_entry_on_password_failure_witness :
    enter_credentials wUserOnly true true =
      (false,
        (findFirstTr wUserOnly username_selectors).2.map
            CredEv.pollUser ++
          [CredEv.typedUsername] ++
          password_selectors.map CredEv.pollPass) :=
  partial_credential_entry_on_password_failure wUserOnly true ⟨1⟩
    (by rfl) (by decide)
